import Mathlib

/-!
Verification of the parameter-derivation core of the winter-circom prover
(`src/1_Prover/src/circom.rs`): the security-parameter solver
(`number_of_draws` / `step`), the FRI folding-schedule loop and the circuit
parameter vector assembled by `generate_circom_main`, together with the
precondition checks of `circom_create` and the hash-function assertion of
`circom_prove`.

Modelling conventions:
* Machine integers (`u128`, `usize`, `u32`) are modelled as `ℕ`; no run
  modelled below overflows or underflows its machine width.
* The solver's arbitrary-precision floats (`rug::Float` at precision
  `security + 2` bits) are modelled by exact rationals.  The spec defines the
  recursion `P` exactly, and every concrete instance evaluated below produces
  only dyadic values that the source representation also holds exactly.
* The `while` loops of the source are modelled with an explicit fuel
  argument; a `none` result means the loop did not finish within the given
  fuel (so `(∀ fuel, … = none)` states non-termination).
* File-system effects are modelled by an explicit list of pre-existing paths
  and a list of paths written by the operation.
-/

namespace WinterCircom

/-- `step` from `circom.rs`: the sampling-without-replacement recursion
`P(x, n)` — the probability of reaching `num_queries` successes within `n`
draws from a domain of size `lde_domain_size`.  The source memoises the
recursion in a `HashMap`; memoisation does not change the computed value and
is omitted.  The source computes `lde_domain_size - x` in `u128`; it is
modelled as the rational difference, which agrees with the source whenever
`x ≤ lde_domain_size` (true in every run modelled below). -/
def step (num_queries lde_domain_size : ℕ) : ℕ → ℕ → ℚ
  | x, 0 => if x = num_queries then 1 else 0
  | x, n + 1 =>
    if x = num_queries then 1
    else ((lde_domain_size : ℚ) - (x : ℚ)) / (lde_domain_size : ℚ) *
        step num_queries lde_domain_size (x + 1) n
      + (x : ℚ) / (lde_domain_size : ℚ) * step num_queries lde_domain_size x n

/-- The threshold `2^(-security)` that the source computes as
`Float::with_val(precision, 2_f64).pow(-security)`; the value is exactly
representable at precision `security + 2`, so the rational is exact. -/
def pow2neg (security : ℕ) : ℚ := 1 / 2 ^ security

/-- The `while` loop of `number_of_draws` from `circom.rs`, with fuel.  Each
iteration evaluates `step(0, num_draws)`, increments `num_draws`, and loops
while `1 - st > 2^(-security)`; the increment happens before the test, so the
loop always exits with the already-incremented counter. -/
def number_of_draws_loop (num_queries lde_domain_size security : ℕ) :
    ℕ → ℕ → Option ℕ
  | 0, _ => none
  | fuel + 1, num_draws =>
    if pow2neg security < 1 - step num_queries lde_domain_size 0 num_draws
    then number_of_draws_loop num_queries lde_domain_size security fuel (num_draws + 1)
    else some (num_draws + 1)

/-- `number_of_draws` from `circom.rs` (fuelled; `none` models
non-termination of the source's `while` loop).  The source takes `security`
as `i32`; every call site passes a positive literal, so `ℕ` is faithful. -/
def number_of_draws (num_queries lde_domain_size security fuel : ℕ) : Option ℕ :=
  number_of_draws_loop num_queries lde_domain_size security fuel 0

/-- Structural worker for `log2`: counts how often the argument can be
halved before dropping below 2; the first argument is fuel, for which the
argument itself always suffices. -/
def log2_go : ℕ → ℕ → ℕ
  | 0, _ => 0
  | fuel + 1, m => if 2 ≤ m then log2_go fuel (m / 2) + 1 else 0

/-- `winterfell::math::log2`, used by `generate_circom_main`.  The library
function (outside the provided sources) returns the base-2 logarithm of its
argument; all arguments produced in `circom.rs` are powers of two, on which
this integer base-2 logarithm is exact. -/
def log2 (n : ℕ) : ℕ := log2_go n n

/-- The `WinterCircomProofOptions` record as consumed by `circom.rs` (the
struct itself is declared in `lib.rs`, outside the provided sources): the
fields and zero-argument accessors that `generate_circom_main` and
`circom_create` read.  All are plain machine integers. -/
structure WinterCircomProofOptions where
  num_queries : ℕ
  lde_blowup_factor : ℕ
  fri_folding_factor : ℕ
  fri_max_remainder_size : ℕ
  grinding_factor : ℕ
  trace_length : ℕ
  trace_width : ℕ
  num_assertions : ℕ
deriving DecidableEq

/-- The `while` loop computing `fri_tree_depths` at the top of
`generate_circom_main`, with fuel.  Note that the source divides the running
domain size by `proof_options.lde_blowup_factor()` — the `divisor` argument
is instantiated with the blowup factor in `fri_tree_depths` below. -/
def fri_tree_depths_loop (divisor max_remainder : ℕ) : ℕ → ℕ → Option (List ℕ)
  | 0, domain => if max_remainder < domain then none else some []
  | fuel + 1, domain =>
    if max_remainder < domain then
      Option.map (fun rest => log2 (domain / divisor) :: rest)
        (fri_tree_depths_loop divisor max_remainder fuel (domain / divisor))
    else some []

/-- The `fri_tree_depths` list computed by `generate_circom_main`: the
domain starts at `trace_length * lde_blowup_factor()` and is divided by
`lde_blowup_factor()` while it exceeds `fri_max_remainder_size`, pushing
`log2` of each intermediate domain size. -/
def fri_tree_depths (opts : WinterCircomProofOptions) (fuel : ℕ) : Option (List ℕ) :=
  fri_tree_depths_loop opts.lde_blowup_factor opts.fri_max_remainder_size fuel
    (opts.trace_length * opts.lde_blowup_factor)

/-- Modelled from the spec: the §4.2 folding schedule as the spec words it —
the running domain size is divided by `folding_factor` each round (the
schedule "the folding actually performed by the external proving library").
Stated only for comparison with the source loop `fri_tree_depths`, which
divides by the blowup factor instead. -/
def schedule_spec (trace_length blowup_factor folding_factor max_remainder_size
    fuel : ℕ) : Option (List ℕ) :=
  fri_tree_depths_loop folding_factor max_remainder_size fuel
    (trace_length * blowup_factor)

/-- The textual form of the `fri_tree_depths` parameter substituted into the
generated `verifier.circom`: an empty schedule becomes the placeholder
`"[0]"`, otherwise the entries are joined with `", "` inside brackets. -/
def fri_tree_depths_string (depths : List ℕ) : String :=
  if depths.length = 0 then "[0]"
  else "[" ++ String.intercalate ", " (depths.map (fun x => toString x)) ++ "]"

/-- The ordered circuit parameter vector written by `generate_circom_main`
into `verifier.circom`, with the field names used by the comments of the
generated file. -/
structure CircomMainParams where
  addicity : ℕ
  ce_blowup_factor : ℕ
  domain_offset : ℕ
  folding_factor : ℕ
  fri_tree_depth : String
  grinding_factor : ℕ
  lde_blowup_factor : ℕ
  num_assertions : ℕ
  num_draws : ℕ
  num_fri_layers : ℕ
  num_pub_coin_seed : ℕ
  num_public_inputs : ℕ
  num_queries : ℕ
  num_transition_constraints : ℕ
  trace_length : ℕ
  trace_width : ℕ
  tree_depth : ℕ
deriving DecidableEq

/-- `generate_circom_main` from `circom.rs`, modelled as the parameter
vector it writes into `target/circom/<name>/verifier.circom`.  The
quantities obtained from the winterfell library (outside the provided
sources) are inputs: `num_pub_inputs` is `AIR::PublicInputs::NUM_PUB_INPUTS`,
`num_transition_constraints` and `ce_domain_size` come from the freshly
built `AirContext`, and `two_adicity` / `generator` are the field constants
`E::TWO_ADICITY` / `E::GENERATOR`.  `fuel` bounds both source `while` loops;
`none` models their non-termination. -/
def generate_circom_main (opts : WinterCircomProofOptions)
    (num_pub_inputs num_transition_constraints ce_domain_size two_adicity
      generator fuel : ℕ) : Option CircomMainParams :=
  match fri_tree_depths opts fuel with
  | none => none
  | some depths =>
    match number_of_draws opts.num_queries
        (opts.trace_length * opts.fri_folding_factor) 128 fuel with
    | none => none
    | some draws => some
      { addicity := two_adicity
        ce_blowup_factor := ce_domain_size / opts.trace_length
        domain_offset := generator
        folding_factor := opts.fri_folding_factor
        fri_tree_depth := fri_tree_depths_string depths
        grinding_factor := opts.grinding_factor
        lde_blowup_factor := opts.lde_blowup_factor
        num_assertions := opts.num_assertions
        num_draws := draws
        num_fri_layers := depths.length
        num_pub_coin_seed := num_pub_inputs + 2
        num_public_inputs := num_pub_inputs
        num_queries := opts.num_queries
        num_transition_constraints := num_transition_constraints
        trace_length := opts.trace_length
        trace_width := opts.trace_width
        tree_depth := log2 (opts.trace_length * opts.fri_folding_factor) }

/-- The error type returned throughout `circom.rs`.  The type is declared in
`utils.rs`, outside the provided sources; the variants used by the modelled
functions are reconstructed from the spec's error taxonomy (§7):
missing-precondition errors carry the missing path and a hint. -/
inductive WinterCircomError where
  | fileNotFound (path : String) (comment : Option String)
  | ioError (comment : Option String)
deriving DecidableEq

/-- Modelled from the spec: `check_file` (defined in `utils.rs`, outside the
provided sources) succeeds when the given path exists and otherwise reports a
missing-precondition error naming the missing path together with the
human-readable hint (§7: "reported with the missing path and a
human-readable hint of which prior step produces it").  The file system is
the list of existing paths. -/
def check_file (fs : List String) (path : String) (comment : Option String) :
    Except WinterCircomError Unit :=
  if path ∈ fs then Except.ok () else Except.error (WinterCircomError.fileNotFound path comment)

/-- `circom_create` from `circom.rs`, up to the subprocess boundary: it
checks `final.ptau` and `circuits/air/<name>.circom`, then creates the
output directory and has `generate_circom_main` write `verifier.circom`.
The result pairs the source's `Result` with the list of paths the call
created, in creation order; `none` models non-termination of the loops
inside `generate_circom_main`. -/
def circom_create (opts : WinterCircomProofOptions)
    (num_pub_inputs num_transition_constraints ce_domain_size two_adicity
      generator fuel : ℕ) (circuit_name : String) (fs : List String) :
    Option (Except WinterCircomError Unit × List String) :=
  match check_file fs "final.ptau"
      (some "required for the generation of circuit-specific keys") with
  | Except.error e => some (Except.error e, [])
  | Except.ok _ =>
    match check_file fs ("circuits/air/" ++ circuit_name ++ ".circom")
        (some "required for the compilation of Circom code") with
    | Except.error e => some (Except.error e, [])
    | Except.ok _ =>
      match generate_circom_main opts num_pub_inputs num_transition_constraints
          ce_domain_size two_adicity generator fuel with
      | none => none
      | some _ => some (Except.ok (),
          ["target/circom/" ++ circuit_name,
            "target/circom/" ++ circuit_name ++ "/verifier.circom"])

/-- `winterfell::HashFunction` (declared outside the provided sources), as
matched against `HashFunction::Poseidon` by the assertion in
`circom_prove`. -/
inductive HashFunction where
  | Blake3_256
  | Blake3_192
  | Sha3_256
  | Poseidon
deriving DecidableEq

/-- Outcome of a call that may terminate the process through a failed
`assert_eq!` instead of returning. -/
inductive ProveOutcome (α : Type) where
  | panicked (message : String)
  | completed (result : α)
deriving DecidableEq

/-- The message of the `assert_eq!` at the start of `circom_prove`. -/
def poseidon_assertion_message : String :=
  "assertion failed: prover.options().hash_fn() == HashFunction::Poseidon"

/-- `circom_prove` from `circom.rs`, up to the first effectful step: the
function first asserts `prover.options().hash_fn() == HashFunction::Poseidon`
and only then builds the STARK proof and everything after it.  The whole
continuation (proof building, verification, JSON output) is abstracted as
`build_proof`, which the panicking branch never invokes. -/
def circom_prove {α : Type} (hash_fn : HashFunction)
    (build_proof : Unit → Except WinterCircomError α) :
    ProveOutcome (Except WinterCircomError α) :=
  if hash_fn = HashFunction.Poseidon
  then ProveOutcome.completed (build_proof ())
  else ProveOutcome.panicked poseidon_assertion_message

/-- Proof options used for the concrete scenarios below (trace length 8,
blowup 8, folding factor 4, maximum remainder size 4, one query). -/
def opts_ex : WinterCircomProofOptions :=
  { num_queries := 1
    lde_blowup_factor := 8
    fri_folding_factor := 4
    fri_max_remainder_size := 4
    grinding_factor := 0
    trace_length := 8
    trace_width := 2
    num_assertions := 2 }

/-- Proof options whose initial LDE domain (64) is already at the maximum
remainder size, so the folding loop performs zero iterations. -/
def opts_small : WinterCircomProofOptions :=
  { num_queries := 1
    lde_blowup_factor := 8
    fri_folding_factor := 4
    fri_max_remainder_size := 64
    grinding_factor := 0
    trace_length := 8
    trace_width := 2
    num_assertions := 2 }

/-- The parameter vector `generate_circom_main` produces for `opts_ex` with
`NUM_PUB_INPUTS = 2`, 4 transition constraints, composition domain size 64,
two-adicity 32 and generator 7. -/
def params_ex : CircomMainParams :=
  { addicity := 32
    ce_blowup_factor := 8
    domain_offset := 7
    folding_factor := 4
    fri_tree_depth := "[3, 0]"
    grinding_factor := 0
    lde_blowup_factor := 8
    num_assertions := 2
    num_draws := 2
    num_fri_layers := 2
    num_pub_coin_seed := 4
    num_public_inputs := 2
    num_queries := 1
    num_transition_constraints := 4
    trace_length := 8
    trace_width := 2
    tree_depth := 5 }

/-- The parameter vector `generate_circom_main` produces for `opts_small`
(with the same library-derived inputs as `params_ex`): the empty folding
schedule is emitted as the `"[0]"` placeholder with `num_fri_layers = 0`. -/
def params_small : CircomMainParams :=
  { addicity := 32
    ce_blowup_factor := 8
    domain_offset := 7
    folding_factor := 4
    fri_tree_depth := "[0]"
    grinding_factor := 0
    lde_blowup_factor := 8
    num_assertions := 2
    num_draws := 2
    num_fri_layers := 0
    num_pub_coin_seed := 4
    num_public_inputs := 2
    num_queries := 1
    num_transition_constraints := 4
    trace_length := 8
    trace_width := 2
    tree_depth := 5 }

-- ===========================================================================
-- Helper lemmas
-- ===========================================================================

/-- Exact description of the solver loop: a successful run starting at
counter `k` returns `r > k` such that the failure bound holds at `r - 1` and
strictly fails at every earlier counter the loop visited. -/
theorem number_of_draws_loop_spec (q d s : ℕ) :
    ∀ fuel k r, number_of_draws_loop q d s fuel k = some r →
      k < r ∧ 1 - step q d 0 (r - 1) ≤ pow2neg s ∧
        ∀ m, k ≤ m → m < r - 1 → pow2neg s < 1 - step q d 0 m := by
  intro fuel
  induction fuel with
  | zero =>
    intro k r h
    simp [number_of_draws_loop] at h
  | succ fuel ih =>
    intro k r h
    simp only [number_of_draws_loop] at h
    by_cases hc : pow2neg s < 1 - step q d 0 k
    · rw [if_pos hc] at h
      obtain ⟨h1, h2, h3⟩ := ih (k + 1) r h
      refine ⟨Nat.lt_of_succ_lt h1, h2, ?_⟩
      intro m hkm hmr
      rcases Nat.lt_or_ge m (k + 1) with hm | hm
      · have hmk : m = k := Nat.le_antisymm (Nat.lt_succ_iff.mp hm) hkm
        rw [hmk]
        exact hc
      · exact h3 m hm hmr
    · rw [if_neg hc] at h
      have hr : k + 1 = r := Option.some.inj h
      subst hr
      refine ⟨Nat.lt_succ_self k, ?_, ?_⟩
      · simpa using not_lt.mp hc
      · intro m hkm hmr
        omega

/-- `step` at one success away from the target but with an exhausted domain
of size 1: the success probability stays 0 at every depth. -/
theorem step_two_one_at_one (n : ℕ) : step 2 1 1 n = 0 := by
  induction n with
  | zero => simp [step]
  | succ n ih => simp [step, ih]

/-- With 2 required queries and a domain of size 1, the recursion `P(0, n)`
is 0 at every depth `n`: success is impossible. -/
theorem step_two_one_at_zero (n : ℕ) : step 2 1 0 n = 0 := by
  cases n with
  | zero => simp [step]
  | succ n => simp [step, step_two_one_at_one]

/-- The solver loop on `num_queries = 2`, `domain_size = 1` never exits,
whatever fuel and starting counter it is given. -/
theorem number_of_draws_loop_two_one_none :
    ∀ fuel k, number_of_draws_loop 2 1 1 fuel k = none := by
  intro fuel
  induction fuel with
  | zero =>
    intro k
    simp [number_of_draws_loop]
  | succ fuel ih =>
    intro k
    have hc : pow2neg 1 < 1 - step 2 1 0 k := by
      rw [step_two_one_at_zero]
      norm_num [pow2neg]
    simp only [number_of_draws_loop]
    rw [if_pos hc]
    exact ih (k + 1)

/-- A folding loop whose starting domain is at most the maximum remainder
size performs zero iterations and returns the empty schedule. -/
theorem fri_tree_depths_loop_of_le (divisor max_rem fuel domain : ℕ)
    (h : domain ≤ max_rem) :
    fri_tree_depths_loop divisor max_rem fuel domain = some [] := by
  cases fuel with
  | zero => simp [fri_tree_depths_loop, Nat.not_lt.mpr h]
  | succ fuel => simp [fri_tree_depths_loop, Nat.not_lt.mpr h]

-- ===========================================================================
-- C1
-- ===========================================================================

/-- C1 counterexample: with `num_queries = 1`, `domain_size = 2`,
`security_bits = 1` the solver returns 2, yet the failure bound
`1 - P(0, n) ≤ 2^-1` already holds at `n = 1 < 2` — so the returned value is
not the minimal such `n`, and at `returned - 1` the failure probability is
not strictly larger than the bound. -/
theorem number_of_draws_minimality_cex :
    number_of_draws 1 2 1 5 = some 2 ∧
      1 - step 1 2 0 1 ≤ pow2neg 1 ∧ (1 : ℕ) < 2 := by
  refine ⟨?_, ?_, by norm_num⟩ <;>
    norm_num [number_of_draws, number_of_draws_loop, step, pow2neg]

/-- C1 (amended): because `num_draws` is incremented before the loop test,
`number_of_draws` returns `n + 1` where `n` is the minimal draw count with
`1 - P(0, n) ≤ 2^-security_bits`: whenever the loop terminates with result
`r`, the failure bound holds at `r - 1` and fails strictly at every
`m < r - 1`. -/
theorem number_of_draws_returns_first_success_plus_one
    (q d s fuel r : ℕ) (h : number_of_draws q d s fuel = some r) :
    1 ≤ r ∧ 1 - step q d 0 (r - 1) ≤ pow2neg s ∧
      ∀ m < r - 1, pow2neg s < 1 - step q d 0 m := by
  obtain ⟨h1, h2, h3⟩ := number_of_draws_loop_spec q d s fuel 0 r h
  exact ⟨h1, h2, fun m hm => h3 m (Nat.zero_le m) hm⟩

/-- C1 witness: the amended statement instantiated at `num_queries = 1`,
`domain_size = 2`, `security_bits = 1`, where the solver returns 2. -/
theorem number_of_draws_returns_first_success_plus_one_witness :
    number_of_draws 1 2 1 5 = some 2 ∧
      (1 ≤ 2 ∧ 1 - step 1 2 0 (2 - 1) ≤ pow2neg 1 ∧
        ∀ m < 2 - 1, pow2neg 1 < 1 - step 1 2 0 m) :=
  ⟨by norm_num [number_of_draws, number_of_draws_loop, step, pow2neg],
    number_of_draws_returns_first_success_plus_one 1 2 1 5 2
      (by norm_num [number_of_draws, number_of_draws_loop, step, pow2neg])⟩

-- ===========================================================================
-- C3
-- ===========================================================================

/-- C3 counterexample: `number_of_draws` with `num_queries = 0` on domain
size 4 and one security bit returns 1, not the 0 the claim requires. -/
theorem number_of_draws_zero_queries_cex :
    number_of_draws 0 4 1 1 = some 1 ∧ (some 1 : Option ℕ) ≠ some 0 := by
  refine ⟨?_, by simp⟩
  norm_num [number_of_draws, number_of_draws_loop, step, pow2neg]

/-- C3 (amended): with `num_queries = 0` the success condition holds before
any draw (`P(0, 0) = 1`), but the counter is incremented before the loop
test, so the solver returns 1 — for every domain size and security level. -/
theorem number_of_draws_zero_queries_returns_one (d s fuel : ℕ)
    (h : 1 ≤ fuel) : number_of_draws 0 d s fuel = some 1 := by
  cases fuel with
  | zero => omega
  | succ fuel =>
    have hstep : step 0 d 0 0 = 1 := by simp [step]
    have hpos : (0 : ℚ) < pow2neg s := by
      rw [pow2neg]
      positivity
    have hcond : ¬ pow2neg s < 1 - step 0 d 0 0 := by
      rw [hstep]
      simp only [sub_self]
      exact not_lt.mpr hpos.le
    simp only [number_of_draws, number_of_draws_loop]
    rw [if_neg hcond]

/-- C3 witness: the amended statement at domain size 4, one security bit and
one unit of fuel, which suffices for the single loop iteration. -/
theorem number_of_draws_zero_queries_returns_one_witness :
    1 ≤ 1 ∧ number_of_draws 0 4 1 1 = some 1 :=
  ⟨by decide, number_of_draws_zero_queries_returns_one 4 1 1 (by decide)⟩

-- ===========================================================================
-- C4
-- ===========================================================================

/-- C4: `number_of_draws` performs no validity check on
`domain_size < num_queries`; on `num_queries = 2`, `domain_size = 1` the
loop condition never becomes false (`P(0, n) = 0` for every `n`), so the
source's `while` loop never terminates — no fuel bound suffices. -/
theorem number_of_draws_diverges_when_domain_lt_queries (fuel : ℕ) :
    number_of_draws 2 1 1 fuel = none :=
  number_of_draws_loop_two_one_none fuel 0

-- ===========================================================================
-- C2
-- ===========================================================================

/-- C2: at `trace_length = 8`, `blowup_factor = 8`, `folding_factor = 4`,
`max_remainder_size = 4` the source loop divides the domain by the blowup
factor and produces the depth list `[3, 0]`, whereas the claimed schedule
(dividing by the folding factor) is `[4, 2]`; the two differ. -/
theorem fri_schedule_divides_by_blowup_not_folding :
    fri_tree_depths opts_ex 4 = some [3, 0] ∧
      schedule_spec 8 8 4 4 4 = some [4, 2] ∧ ([3, 0] : List ℕ) ≠ [4, 2] := by
  refine ⟨by decide, by decide, by decide⟩

-- ===========================================================================
-- C5
-- ===========================================================================

/-- C5 counterexample: for `opts_ex` with two AIR-declared public inputs,
the `num_public_inputs` entry of the emitted parameter vector is 2, not
`2 + 2`; the claim fails as stated. -/
theorem num_public_inputs_plus_two_cex :
    Option.map (fun p => p.num_public_inputs)
        (generate_circom_main opts_ex 2 4 64 32 7 4) = some 2 ∧
      (2 : ℕ) ≠ 2 + 2 := by
  have hd : fri_tree_depths opts_ex 4 = some [3, 0] := by decide
  have hn : number_of_draws opts_ex.num_queries
      (opts_ex.trace_length * opts_ex.fri_folding_factor) 128 4 = some 2 := by
    norm_num [number_of_draws, number_of_draws_loop, step, pow2neg, opts_ex]
  refine ⟨?_, by norm_num⟩
  simp only [generate_circom_main, hd, hn]
  rfl

/-- C5 (amended): in the emitted parameter vector, `num_public_inputs`
equals the AIR-declared public-input count exactly; it is the
`num_pub_coin_seed` entry (the public-coin seed length) that equals the
AIR-declared count plus the two-field-element serialized context header. -/
theorem generate_circom_main_public_input_fields
    (opts : WinterCircomProofOptions)
    (npi ntc ced ta g fuel : ℕ) (p : CircomMainParams)
    (h : generate_circom_main opts npi ntc ced ta g fuel = some p) :
    p.num_public_inputs = npi ∧ p.num_pub_coin_seed = npi + 2 := by
  cases hd : fri_tree_depths opts fuel with
  | none => simp [generate_circom_main, hd] at h
  | some depths =>
    cases hn : number_of_draws opts.num_queries
        (opts.trace_length * opts.fri_folding_factor) 128 fuel with
    | none => simp [generate_circom_main, hd, hn] at h
    | some draws =>
      simp only [generate_circom_main, hd, hn] at h
      obtain rfl := Option.some.inj h
      exact ⟨rfl, rfl⟩

/-- C5 witness: the amended statement at `opts_ex` with two AIR-declared
public inputs, where the emitted vector is `params_ex`. -/
theorem generate_circom_main_public_input_fields_witness :
    generate_circom_main opts_ex 2 4 64 32 7 4 = some params_ex ∧
      (params_ex.num_public_inputs = 2 ∧ params_ex.num_pub_coin_seed = 2 + 2) :=
  ⟨by
    have hn : number_of_draws opts_ex.num_queries
        (opts_ex.trace_length * opts_ex.fri_folding_factor) 128 4 = some 2 := by
      norm_num [number_of_draws, number_of_draws_loop, step, pow2neg, opts_ex]
    simp only [generate_circom_main, show fri_tree_depths opts_ex 4 = some [3, 0] by decide, hn]
    decide,
    generate_circom_main_public_input_fields opts_ex 2 4 64 32 7 4 params_ex
      (by
        have hn : number_of_draws opts_ex.num_queries
            (opts_ex.trace_length * opts_ex.fri_folding_factor) 128 4 = some 2 := by
          norm_num [number_of_draws, number_of_draws_loop, step, pow2neg, opts_ex]
        simp only [generate_circom_main, show fri_tree_depths opts_ex 4 = some [3, 0] by decide,
          hn]
        decide)⟩

-- ===========================================================================
-- C6
-- ===========================================================================

/-- C6: the `num_draws` entry of the emitted parameter vector is exactly the
result of `number_of_draws` called with the domain
`trace_length * fri_folding_factor` (not the LDE domain
`trace_length * lde_blowup_factor`) and with the security constant 128. -/
theorem generate_circom_main_num_draws_source
    (opts : WinterCircomProofOptions)
    (npi ntc ced ta g fuel : ℕ) (p : CircomMainParams)
    (h : generate_circom_main opts npi ntc ced ta g fuel = some p) :
    number_of_draws opts.num_queries
      (opts.trace_length * opts.fri_folding_factor) 128 fuel = some p.num_draws := by
  cases hd : fri_tree_depths opts fuel with
  | none => simp [generate_circom_main, hd] at h
  | some depths =>
    cases hn : number_of_draws opts.num_queries
        (opts.trace_length * opts.fri_folding_factor) 128 fuel with
    | none => simp [generate_circom_main, hd, hn] at h
    | some draws =>
      simp only [generate_circom_main, hd, hn] at h
      obtain rfl := Option.some.inj h
      rfl

/-- C6 witness: at `opts_ex` the solver runs on domain `8 * 4 = 32` with
security 128 and its result 2 is the emitted `num_draws` of `params_ex`. -/
theorem generate_circom_main_num_draws_source_witness :
    generate_circom_main opts_ex 2 4 64 32 7 4 = some params_ex ∧
      number_of_draws opts_ex.num_queries
        (opts_ex.trace_length * opts_ex.fri_folding_factor) 128 4 =
          some params_ex.num_draws :=
  ⟨by
    have hn : number_of_draws opts_ex.num_queries
        (opts_ex.trace_length * opts_ex.fri_folding_factor) 128 4 = some 2 := by
      norm_num [number_of_draws, number_of_draws_loop, step, pow2neg, opts_ex]
    simp only [generate_circom_main, show fri_tree_depths opts_ex 4 = some [3, 0] by decide, hn]
    decide,
    generate_circom_main_num_draws_source opts_ex 2 4 64 32 7 4 params_ex
      (by
        have hn : number_of_draws opts_ex.num_queries
            (opts_ex.trace_length * opts_ex.fri_folding_factor) 128 4 = some 2 := by
          norm_num [number_of_draws, number_of_draws_loop, step, pow2neg, opts_ex]
        simp only [generate_circom_main, show fri_tree_depths opts_ex 4 = some [3, 0] by decide,
          hn]
        decide)⟩

-- ===========================================================================
-- C7
-- ===========================================================================

/-- C7: when `final.ptau` is absent, `circom_create` stops at its very first
precondition check with a missing-precondition error naming exactly
`final.ptau`, and no output path is created — in particular no output
directory content and no `verifier.circom`. -/
theorem circom_create_missing_ptau_fails_before_generation
    (opts : WinterCircomProofOptions)
    (npi ntc ced ta g fuel : ℕ) (circuit_name : String) (fs : List String)
    (h : "final.ptau" ∉ fs) :
    circom_create opts npi ntc ced ta g fuel circuit_name fs =
      some (Except.error (WinterCircomError.fileNotFound "final.ptau"
        (some "required for the generation of circuit-specific keys")), []) := by
  simp [circom_create, check_file, h]

/-- C7 witness: on an empty file system the creation call fails with the
`final.ptau` missing-precondition error and writes nothing. -/
theorem circom_create_missing_ptau_witness :
    "final.ptau" ∉ ([] : List String) ∧
      circom_create opts_ex 2 4 64 32 7 0 "sum" [] =
        some (Except.error (WinterCircomError.fileNotFound "final.ptau"
          (some "required for the generation of circuit-specific keys")), []) :=
  ⟨by simp,
    circom_create_missing_ptau_fails_before_generation opts_ex 2 4 64 32 7 0 "sum" []
      (by simp)⟩

-- ===========================================================================
-- C8
-- ===========================================================================

/-- C8: when the initial LDE domain is already at or under the maximum
remainder size, the folding loop performs zero iterations and the emitted
per-round depth parameter is the placeholder string `"[0]"`, never an empty
list. -/
theorem generate_circom_main_empty_schedule_placeholder
    (opts : WinterCircomProofOptions)
    (npi ntc ced ta g fuel : ℕ) (p : CircomMainParams)
    (hsmall : opts.trace_length * opts.lde_blowup_factor ≤ opts.fri_max_remainder_size)
    (h : generate_circom_main opts npi ntc ced ta g fuel = some p) :
    p.fri_tree_depth = "[0]" := by
  have hd : fri_tree_depths opts fuel = some [] :=
    fri_tree_depths_loop_of_le _ _ _ _ hsmall
  cases hn : number_of_draws opts.num_queries
      (opts.trace_length * opts.fri_folding_factor) 128 fuel with
  | none => simp [generate_circom_main, hd, hn] at h
  | some draws =>
    simp only [generate_circom_main, hd, hn] at h
    obtain rfl := Option.some.inj h
    rfl

/-- C8 witness: `opts_small` starts at domain 64 with remainder bound 64, so
the loop body never runs and `params_small` carries the `"[0]"`
placeholder. -/
theorem generate_circom_main_empty_schedule_placeholder_witness :
    opts_small.trace_length * opts_small.lde_blowup_factor ≤
        opts_small.fri_max_remainder_size ∧
      generate_circom_main opts_small 2 4 64 32 7 2 = some params_small ∧
      params_small.fri_tree_depth = "[0]" :=
  ⟨by decide,
    by
      have hn : number_of_draws opts_small.num_queries
          (opts_small.trace_length * opts_small.fri_folding_factor) 128 2 = some 2 := by
        norm_num [number_of_draws, number_of_draws_loop, step, pow2neg, opts_small]
      simp only [generate_circom_main,
        show fri_tree_depths opts_small 2 = some [] by decide, hn]
      decide,
    generate_circom_main_empty_schedule_placeholder opts_small 2 4 64 32 7 2 params_small
      (by decide)
      (by
        have hn : number_of_draws opts_small.num_queries
            (opts_small.trace_length * opts_small.fri_folding_factor) 128 2 = some 2 := by
          norm_num [number_of_draws, number_of_draws_loop, step, pow2neg, opts_small]
        simp only [generate_circom_main,
          show fri_tree_depths opts_small 2 = some [] by decide, hn]
        decide)⟩

-- ===========================================================================
-- C9
-- ===========================================================================

/-- C9: the emitted `num_fri_layers` is the length of the depth list the
folding loop actually computed, taken before the placeholder substitution;
in particular an empty schedule yields `num_fri_layers = 0` together with
the `"[0]"` placeholder string — 0, not 1. -/
theorem generate_circom_main_num_fri_layers
    (opts : WinterCircomProofOptions)
    (npi ntc ced ta g fuel : ℕ) (p : CircomMainParams) (depths : List ℕ)
    (hd : fri_tree_depths opts fuel = some depths)
    (h : generate_circom_main opts npi ntc ced ta g fuel = some p) :
    p.num_fri_layers = depths.length ∧
      (depths = [] → p.num_fri_layers = 0 ∧ p.fri_tree_depth = "[0]") := by
  cases hn : number_of_draws opts.num_queries
      (opts.trace_length * opts.fri_folding_factor) 128 fuel with
  | none => simp [generate_circom_main, hd, hn] at h
  | some draws =>
    simp only [generate_circom_main, hd, hn] at h
    obtain rfl := Option.some.inj h
    refine ⟨rfl, ?_⟩
    rintro rfl
    exact ⟨rfl, rfl⟩

/-- C9 witness: for `opts_small` the loop performs zero divisions, the depth
list is empty, and the emitted vector `params_small` has `num_fri_layers = 0`
alongside the `"[0]"` placeholder. -/
theorem generate_circom_main_num_fri_layers_witness :
    fri_tree_depths opts_small 2 = some [] ∧
      generate_circom_main opts_small 2 4 64 32 7 2 = some params_small ∧
      (params_small.num_fri_layers = List.length ([] : List ℕ) ∧
        (([] : List ℕ) = [] → params_small.num_fri_layers = 0 ∧
          params_small.fri_tree_depth = "[0]")) :=
  ⟨by decide,
    by
      have hn : number_of_draws opts_small.num_queries
          (opts_small.trace_length * opts_small.fri_folding_factor) 128 2 = some 2 := by
        norm_num [number_of_draws, number_of_draws_loop, step, pow2neg, opts_small]
      simp only [generate_circom_main,
        show fri_tree_depths opts_small 2 = some [] by decide, hn]
      decide,
    generate_circom_main_num_fri_layers opts_small 2 4 64 32 7 2 params_small []
      (by decide)
      (by
        have hn : number_of_draws opts_small.num_queries
            (opts_small.trace_length * opts_small.fri_folding_factor) 128 2 = some 2 := by
          norm_num [number_of_draws, number_of_draws_loop, step, pow2neg, opts_small]
        simp only [generate_circom_main,
          show fri_tree_depths opts_small 2 = some [] by decide, hn]
        decide)⟩

-- ===========================================================================
-- C10
-- ===========================================================================

/-- C10: under the Poseidon precondition the assertion at the start of
`circom_prove` passes and the rest of the function runs; with any other hash
function the call panics with the assertion message before invoking the
proof-building continuation — it never returns a `WinterCircomError`
value. -/
theorem circom_prove_poseidon_assertion {α : Type} (hash_fn : HashFunction)
    (build_proof : Unit → Except WinterCircomError α) :
    (hash_fn = HashFunction.Poseidon →
      circom_prove hash_fn build_proof = ProveOutcome.completed (build_proof ())) ∧
    (hash_fn ≠ HashFunction.Poseidon →
      circom_prove hash_fn build_proof = ProveOutcome.panicked poseidon_assertion_message ∧
        ∀ e : WinterCircomError, circom_prove hash_fn build_proof ≠
          ProveOutcome.completed (Except.error e)) := by
  constructor
  · intro h
    simp [circom_prove, h]
  · intro h
    constructor
    · simp [circom_prove, h]
    · intro e
      simp [circom_prove, h]

/-- C10 witness: the assertion statement instantiated at the Poseidon hash
(assertion passes) and at Sha3_256 (panic, not an error return). -/
theorem circom_prove_poseidon_assertion_witness :
    circom_prove HashFunction.Poseidon
        (fun _ => (Except.ok 0 : Except WinterCircomError ℕ)) =
      ProveOutcome.completed (Except.ok 0) ∧
    circom_prove HashFunction.Sha3_256
        (fun _ => (Except.ok 0 : Except WinterCircomError ℕ)) =
      ProveOutcome.panicked poseidon_assertion_message :=
  ⟨(circom_prove_poseidon_assertion HashFunction.Poseidon
      (fun _ => (Except.ok 0 : Except WinterCircomError ℕ))).1 rfl,
    ((circom_prove_poseidon_assertion HashFunction.Sha3_256
      (fun _ => (Except.ok 0 : Except WinterCircomError ℕ))).2 (by decide)).1⟩

end WinterCircom
